import Mathlib

/-!
Verification of the BMR calculator (src/script.js).

The source is a browser form calculator.  Its logical core is three
functions, embedded below over exact rational arithmetic:

* `calculateBMR gender age height weight` — the Harris-Benedict formula,
  rounded with the runtime rounding primitive `Math.round` (round to
  nearest, ties toward positive infinity).
* `validateInputs age height weight` — range checks producing a
  `ValidationResult`.  The raw form values arrive through `parseInt` /
  `parseFloat` and may be NaN; a possibly-NaN number is modelled as
  `Option ℚ` with `none` for NaN, and the falsy test and the comparison
  operators are given their JavaScript semantics on that type.
* `performCalculation` — validate-then-calculate orchestration.  The
  source reads the four raw values from the form and hands the outcome to
  `showError` or `displayResult`; the embedding takes the four values as
  parameters and returns the outcome as a tagged value.
-/

/-- JavaScript runtime rounding primitive `Math.round`: round to the nearest
integer, ties toward positive infinity, i.e. the floor of `x + 1/2`. -/
def mathRound (x : ℚ) : ℤ := ⌊x + 1/2⌋

/-- Embedding of `calculateBMR` (src/script.js, lines 17-27): branch on
`gender === "male"`, apply the corresponding linear formula, return
`Math.round` of it. -/
def calculateBMR (gender : String) (age height weight : ℚ) : ℤ :=
  let bmr : ℚ :=
    if gender = "male" then
      88.362 + (13.397 * weight) + (4.799 * height) - (5.677 * age)
    else
      447.593 + (9.247 * weight) + (3.098 * height) - (4.330 * age)
  mathRound bmr

/-- A JavaScript number as the validator sees it: `none` models NaN
(a missing or unparseable form field). -/
abbrev JSNum := Option ℚ

/-- JavaScript falsiness of a number: `0` and NaN are falsy. -/
def jsFalsy : JSNum → Bool
  | none => true
  | some v => v = 0

/-- JavaScript `x < c` for a possibly-NaN `x`: any comparison with NaN is
false. -/
def jsLt (x : JSNum) (c : ℚ) : Bool :=
  match x with
  | none => false
  | some v => v < c

/-- JavaScript `x > c` for a possibly-NaN `x`: any comparison with NaN is
false. -/
def jsGt (x : JSNum) (c : ℚ) : Bool :=
  match x with
  | none => false
  | some v => c < v

/-- The record of fields isValid and message returned by `validateInputs`. -/
structure ValidationResult where
  isValid : Bool
  message : String
deriving DecidableEq

/-- The age error message of src/script.js, line 38. -/
def ageMessage : String := "请输入有效的年龄（1-120岁）"

/-- The height error message of src/script.js, line 42. -/
def heightMessage : String := "请输入有效的身高（50-250厘米）"

/-- The weight error message of src/script.js, line 46. -/
def weightMessage : String := "请输入有效的体重（20-300公斤）"

/-- Embedding of `validateInputs` (src/script.js, lines 36-50): three
guard clauses in order (age, height, weight), each of the shape
`!x || x < lo || x > hi`, first failure returning its message. -/
def validateInputs (age height weight : JSNum) : ValidationResult :=
  if jsFalsy age || jsLt age 1 || jsGt age 120 then
    { isValid := false, message := ageMessage }
  else if jsFalsy height || jsLt height 50 || jsGt height 250 then
    { isValid := false, message := heightMessage }
  else if jsFalsy weight || jsLt weight 20 || jsGt weight 300 then
    { isValid := false, message := weightMessage }
  else
    { isValid := true, message := "" }

/-- Outcome of one calculation: the error path (`showError message`) or the
success path (`displayResult bmr`). -/
inductive CalcOutcome where
  | err (message : String)
  | ok (bmr : ℤ)
deriving DecidableEq

/-- Embedding of `performCalculation` (src/script.js, lines 88-107): the
four raw form values are the parameters; validation failure surfaces its
message and stops, otherwise `calculateBMR` runs on the values (which
validation guarantees are not NaN, so the default in `getD` is never
used). -/
def performCalculation (gender : String) (age height weight : JSNum) :
    CalcOutcome :=
  let validation := validateInputs age height weight
  if !validation.isValid then
    CalcOutcome.err validation.message
  else
    CalcOutcome.ok
      (calculateBMR gender (age.getD 0) (height.getD 0) (weight.getD 0))

/-- Spec formula for the male branch, written from the words of §4.2:
`BMR = 88.362 + 13.397 × weight + 4.799 × height − 5.677 × age`. -/
def specMaleBMR (age height weight : ℚ) : ℚ :=
  88.362 + 13.397 * weight + 4.799 * height - 5.677 * age

/-- Spec formula for the female (not-male) branch, written from the words
of §4.2: `BMR = 447.593 + 9.247 × weight + 3.098 × height − 4.330 × age`. -/
def specFemaleBMR (age height weight : ℚ) : ℚ :=
  447.593 + 9.247 * weight + 3.098 * height - 4.330 * age

/-- If validation succeeded, none of the three numbers was NaN: each
rejecting guard contains the falsy test, which is true on `none`. -/
theorem validateInputs_isValid_some {age height weight : JSNum}
    (hv : (validateInputs age height weight).isValid = true) :
    ∃ a h w, age = some a ∧ height = some h ∧ weight = some w := by
  unfold validateInputs at hv
  split at hv
  · simp at hv
  · split at hv
    · simp at hv
    · split at hv
      · simp at hv
      · rename_i hA hH hW
        rcases age with _ | a
        · simp [jsFalsy] at hA
        rcases height with _ | h
        · simp [jsFalsy] at hH
        rcases weight with _ | w
        · simp [jsFalsy] at hW
        exact ⟨a, h, w, rfl, rfl, rfl⟩

/-- C1: for every gender string and all rational age, height and weight,
`calculateBMR` equals the Harris-Benedict reference formula of §4.2
(male variant when gender is exactly "male", female variant otherwise)
rounded to the nearest integer with the runtime rounding primitive
(ties toward positive infinity), constants exactly as written. -/
theorem c1_calculateBMR_refines_spec (g : String) (a h w : ℚ) :
    calculateBMR g a h w =
      round (if g = "male" then specMaleBMR a h w else specFemaleBMR a h w) := by
  unfold calculateBMR specMaleBMR specFemaleBMR mathRound
  rw [round_eq]

/-- C2: every integer age in [1, 120] together with rational height in
[50, 250] and weight in [20, 300], boundaries included, is accepted:
`validateInputs` returns isValid true with an empty message. -/
theorem c2_validateInputs_accepts_in_range (a : ℤ) (h w : ℚ)
    (ha1 : 1 ≤ a) (ha2 : a ≤ 120) (hh1 : 50 ≤ h) (hh2 : h ≤ 250)
    (hw1 : 20 ≤ w) (hw2 : w ≤ 300) :
    validateInputs (some (a : ℚ)) (some h) (some w) =
      { isValid := true, message := "" } := by
  have ha1' : (1 : ℚ) ≤ (a : ℚ) := by exact_mod_cast ha1
  have ha2' : (a : ℚ) ≤ 120 := by exact_mod_cast ha2
  have ha0 : (a : ℚ) ≠ 0 := by intro h0; rw [h0] at ha1'; norm_num at ha1'
  have hh0 : h ≠ 0 := by intro h0; rw [h0] at hh1; norm_num at hh1
  have hw0 : w ≠ 0 := by intro h0; rw [h0] at hw1; norm_num at hw1
  simp [validateInputs, jsFalsy, jsLt, jsGt, ha0, hh0, hw0,
    not_lt.mpr ha1', not_lt.mpr ha2', not_lt.mpr hh1, not_lt.mpr hh2,
    not_lt.mpr hw1, not_lt.mpr hw2]

/-- Witness for C2 at age 1, height 50, weight 300 (boundary values). -/
theorem c2_witness :
    validateInputs (some ((1 : ℤ) : ℚ)) (some 50) (some 300) =
      { isValid := true, message := "" } :=
  c2_validateInputs_accepts_in_range 1 50 300 (by norm_num) (by norm_num)
    (by norm_num) (by norm_num) (by norm_num) (by norm_num)

/-- C3 counterexample: on a missing (NaN) age the validator does reject,
but the message is the Chinese string of the source, not the English
sentence quoted by the claim. -/
theorem c3_counterexample :
    ¬ ((validateInputs none (some 170) (some 70)).isValid = false ∧
       (validateInputs none (some 170) (some 70)).message =
         "please enter a valid age (1–120)") := by decide

/-- C3 amended: for every age that is missing/NaN, zero, below 1 or above
120, and any height and weight, `validateInputs` rejects with the age
message of the source (of which the sentence quoted in the claim is the
English rendering). -/
theorem c3_age_rejected (age height weight : JSNum)
    (hbad : age = none ∨ age = some 0 ∨
      ∃ v, age = some v ∧ (v < 1 ∨ 120 < v)) :
    validateInputs age height weight =
      { isValid := false, message := ageMessage } := by
  rcases hbad with rfl | rfl | ⟨v, rfl, hv | hv⟩ <;>
    simp [validateInputs, jsFalsy, jsLt, jsGt, *]

/-- Witness for C3 amended, at age 121 with otherwise valid fields. -/
theorem c3_witness :
    validateInputs (some 121) (some 170) (some 70) =
      { isValid := false, message := ageMessage } :=
  c3_age_rejected (some 121) (some 170) (some 70)
    (Or.inr (Or.inr ⟨121, rfl, Or.inr (by norm_num)⟩))

/-- C4: the rules are checked in the order age, height, weight, and the
first failing rule determines the result: whenever the age guard fires the
age message is returned, whenever it does not and the height guard fires
the height message is returned, and whenever only the weight guard fires
the weight message is returned. -/
theorem c4_first_failure_wins (age height weight : JSNum) :
    ((jsFalsy age || jsLt age 1 || jsGt age 120) = true →
      validateInputs age height weight =
        { isValid := false, message := ageMessage }) ∧
    ((jsFalsy age || jsLt age 1 || jsGt age 120) = false →
      (jsFalsy height || jsLt height 50 || jsGt height 250) = true →
      validateInputs age height weight =
        { isValid := false, message := heightMessage }) ∧
    ((jsFalsy age || jsLt age 1 || jsGt age 120) = false →
      (jsFalsy height || jsLt height 50 || jsGt height 250) = false →
      (jsFalsy weight || jsLt weight 20 || jsGt weight 300) = true →
      validateInputs age height weight =
        { isValid := false, message := weightMessage }) := by
  refine ⟨?_, ?_, ?_⟩ <;> intros <;> simp [validateInputs, *]

/-- Witness for C4: all three fields invalid at once yields the age
message. -/
theorem c4_witness :
    validateInputs none none none =
      { isValid := false, message := ageMessage } :=
  (c4_first_failure_wins none none none).1 (by decide)

/-- C5: the two concrete test vectors of §8: male, 30 years, 175 cm,
70 kg gives 1696, and female, 30 years, 165 cm, 60 kg gives 1384. -/
theorem c5_test_vectors :
    calculateBMR "male" 30 175 70 = 1696 ∧
    calculateBMR "female" 30 165 60 = 1384 := by
  constructor
  · unfold calculateBMR mathRound
    norm_num
  · unfold calculateBMR mathRound
    rw [if_neg (by decide : ¬ ("female" = "male"))]
    norm_num

/-- C6: any gender string other than "male" is computed with the female
formula: the result coincides with gender "female" on the same inputs. -/
theorem c6_nonmale_is_female (g : String) (hg : g ≠ "male") (a h w : ℚ) :
    calculateBMR g a h w = calculateBMR "female" a h w := by
  unfold calculateBMR
  rw [if_neg hg, if_neg (by decide : ¬ ("female" = "male"))]

/-- Witness for C6: gender "Male" (capitalised, hence not "male") gives
the female value. -/
theorem c6_witness :
    calculateBMR "Male" 30 175 70 = calculateBMR "female" 30 175 70 :=
  c6_nonmale_is_female "Male" (by decide) 30 175 70

/-- C7: `calculateBMR` is deterministic: two calls with identical gender,
age, height and weight give identical results (in the embedding the
function is pure, matching the source, which reads no state outside its
four parameters). -/
theorem c7_deterministic (g g' : String) (a a' h h' w w' : ℚ)
    (hg : g = g') (ha : a = a') (hh : h = h') (hw : w = w') :
    calculateBMR g a h w = calculateBMR g' a' h' w' := by
  subst hg ha hh hw
  rfl

/-- Witness for C7 at the male test vector. -/
theorem c7_witness :
    calculateBMR "male" 30 175 70 = calculateBMR "male" 30 175 70 :=
  c7_deterministic "male" "male" 30 30 175 175 70 70 rfl rfl rfl rfl

/-- C8: `performCalculation` orchestrates validate-then-calculate: when
validation rejects, the outcome is the error carrying the validation
message (the calculator is not reached); when validation accepts, the
three numbers are actual values and the outcome is ok with exactly
`calculateBMR` of those inputs. -/
theorem c8_performCalculation_orchestrates (g : String)
    (age height weight : JSNum) :
    ((validateInputs age height weight).isValid = false →
      performCalculation g age height weight =
        CalcOutcome.err (validateInputs age height weight).message) ∧
    ((validateInputs age height weight).isValid = true →
      ∃ a h w, age = some a ∧ height = some h ∧ weight = some w ∧
        performCalculation g age height weight =
          CalcOutcome.ok (calculateBMR g a h w)) := by
  constructor
  · intro hv
    simp [performCalculation, hv]
  · intro hv
    obtain ⟨a, h, w, rfl, rfl, rfl⟩ := validateInputs_isValid_some hv
    exact ⟨a, h, w, rfl, rfl, rfl, by simp [performCalculation, hv]⟩

/-- Witness for C8 on the error path: a missing age surfaces the
validation message. -/
theorem c8_witness :
    performCalculation "male" none (some 175) (some 70) =
      CalcOutcome.err (validateInputs none (some 175) (some 70)).message :=
  (c8_performCalculation_orchestrates "male" none (some 175) (some 70)).1
    (by decide)

/-- C9: `calculateBMR` is total and validates nothing: for every gender
and all rational inputs, even out of range, it returns an integer; and
the value can be negative for extreme inputs (age one million with zero
height and weight). -/
theorem c9_total_no_validation :
    (∀ (g : String) (a h w : ℚ), ∃ n : ℤ, calculateBMR g a h w = n) ∧
    calculateBMR "male" 1000000 0 0 < 0 := by
  constructor
  · intro g a h w
    exact ⟨_, rfl⟩
  · unfold calculateBMR mathRound
    norm_num

/-- C10: for each fixed gender, `calculateBMR` is non-decreasing in
weight and in height and non-increasing in age, the other arguments held
fixed. -/
theorem c10_monotone (g : String) (a a' h h' w w' : ℚ) :
    (w ≤ w' → calculateBMR g a h w ≤ calculateBMR g a h w') ∧
    (h ≤ h' → calculateBMR g a h w ≤ calculateBMR g a h' w) ∧
    (a ≤ a' → calculateBMR g a' h w ≤ calculateBMR g a h w) := by
  unfold calculateBMR mathRound
  refine ⟨?_, ?_, ?_⟩ <;> intro hle <;> by_cases hg : g = "male" <;>
    simp only [hg, if_true, if_false] <;> apply Int.floor_le_floor <;> linarith

/-- Witness for C10: more weight does not decrease the male value. -/
theorem c10_witness :
    calculateBMR "male" 30 175 70 ≤ calculateBMR "male" 30 175 80 :=
  (c10_monotone "male" 30 30 175 175 70 80).1 (by norm_num)
